import Mathlib

/-
  Verification development for the youtube-competition-analysis repository.

  The dashboard TypeScript sources (dashboard/src/lib/data.ts in its two
  checked-in revisions, dashboard/src/lib/actions.ts, dashboard/src/types)
  are embedded shallowly below; supabase tables are modelled as Lean lists
  of rows and queries as pure functions over them.  The Python backend
  (scheduler, baseline calculator, trend detector) is not part of the
  checked-in sources, so those parts are modelled from the specification
  and are marked as such in their doc comments.

  Numeric JS values are modelled as rationals; timestamps as integers.
-/

namespace YTComp

/-- Row of the snapshots table (dashboard/src/types/database.ts). -/
structure Snapshot where
  video_id : String
  window_type : String
  views : ℚ
  likes : ℚ
  comments : ℚ
deriving DecidableEq, Repr

/-- A video row together with its snapshots, as passed to the dashboard
performance helpers (dashboard/src/lib/data.ts). -/
structure VideoWS where
  video_id : String
  channel_id : String
  is_short : Bool
  snapshots : List Snapshot
deriving DecidableEq, Repr

/-- Row of the channel_baselines table (dashboard/src/types/database.ts).
Nullable columns are Options. -/
structure ChannelBaselineRow where
  channel_id : String
  is_short : Bool
  window_type : String
  median_views : Option ℚ
  median_likes : Option ℚ
  median_comments : Option ℚ
  sample_size : Option ℕ
  source : Option String
deriving DecidableEq, Repr

/-- getSnapshotByWindow from dashboard/src/lib/data.ts:
`snapshots.find(s => s.window_type === windowType)`. -/
def getSnapshotByWindow (snapshots : List Snapshot) (windowType : String) :
    Option Snapshot :=
  snapshots.find? (fun s => s.window_type == windowType)

/-- The four label branches of calculatePerformance; the JS string
interpolation of the rounded ratio is abstracted to the branch taken. -/
inductive PerfLabel where
  | aboveStrong
  | above
  | average
  | below
deriving DecidableEq, Repr

/-- Label branch selection inside calculatePerformance
(dashboard/src/lib/data.ts): ratio >= 2, >= 1.2, >= 0.8, else below. -/
def perfLabel (ratio : ℚ) : PerfLabel :=
  if 2 ≤ ratio then .aboveStrong
  else if 6/5 ≤ ratio then .above
  else if 4/5 ≤ ratio then .average
  else .below

/-- calculatePerformance from dashboard/src/lib/data.ts:
returns null when the baseline is null or zero
(`if (!baseline || baseline === 0) return null`), otherwise the
ratio views / baseline with its label. -/
def calculatePerformance (views : ℚ) (baseline : Option ℚ) :
    Option (ℚ × PerfLabel) :=
  match baseline with
  | none => none
  | some b =>
    if b = 0 then none
    else
      let ratio := views / b
      some (ratio, perfLabel ratio)

/-- The baseline-matching predicate used by getVideoPerformanceRatio
(dashboard/src/app/page.tsx): same channel, same is_short,
window_type "24h". -/
def baselineMatches24h (video : VideoWS) (b : ChannelBaselineRow) : Bool :=
  b.channel_id == video.channel_id && b.is_short == video.is_short &&
    b.window_type == "24h"

/-- getVideoPerformanceRatio from dashboard/src/app/page.tsx: null when
there is no 24h snapshot, no matching baseline, or the baseline
median_views is null or zero; otherwise snapshot views / median_views. -/
def getVideoPerformanceRatio (video : VideoWS)
    (baselines : List ChannelBaselineRow) : Option ℚ :=
  match getSnapshotByWindow video.snapshots "24h" with
  | none => none
  | some snapshot24h =>
    match baselines.find? (fun b => baselineMatches24h video b) with
    | none => none
    | some baseline =>
      match baseline.median_views with
      | none => none
      | some mv => if mv = 0 then none else some (snapshot24h.views / mv)

end YTComp

namespace YTComp

/-- Example video used to evaluate the performance-ratio helpers on the
concrete numbers named by the specification. -/
def exVideo : VideoWS :=
  { video_id := "v1", channel_id := "c1", is_short := false,
    snapshots := [⟨"v1", "24h", 10000, 500, 50⟩] }

/-- Example baseline table: channel c1's 24h long-form baseline has
median_views 5000. -/
def exBaselines : List ChannelBaselineRow :=
  [{ channel_id := "c1", is_short := false, window_type := "24h",
     median_views := some 5000, median_likes := none,
     median_comments := none, sample_size := some 10,
     source := some "calculated" }]

/-- C1: a performance-ratio computation over a 24h snapshot and its channel
baseline yields null (not an error, not infinity) when the baseline is
absent or its median metric is zero, and otherwise equals the item metric
divided by the baseline metric; views 10,000 over baseline median 5,000
yields exactly 2. -/
theorem performance_ratio_null_or_quotient :
    (∀ views : ℚ, calculatePerformance views none = none) ∧
    (∀ views : ℚ, calculatePerformance views (some 0) = none) ∧
    (∀ views b : ℚ, b ≠ 0 →
      calculatePerformance views (some b) = some (views / b, perfLabel (views / b))) ∧
    (∀ (v : VideoWS) (B : List ChannelBaselineRow),
      getSnapshotByWindow v.snapshots "24h" = none →
      getVideoPerformanceRatio v B = none) ∧
    (∀ (v : VideoWS) (B : List ChannelBaselineRow) (s : Snapshot),
      getSnapshotByWindow v.snapshots "24h" = some s →
      B.find? (fun b => baselineMatches24h v b) = none →
      getVideoPerformanceRatio v B = none) ∧
    (∀ (v : VideoWS) (B : List ChannelBaselineRow) (s : Snapshot)
        (b : ChannelBaselineRow),
      getSnapshotByWindow v.snapshots "24h" = some s →
      B.find? (fun bb => baselineMatches24h v bb) = some b →
      ((b.median_views = none ∨ b.median_views = some 0) →
        getVideoPerformanceRatio v B = none) ∧
      (∀ m : ℚ, b.median_views = some m → m ≠ 0 →
        getVideoPerformanceRatio v B = some (s.views / m))) ∧
    getVideoPerformanceRatio exVideo exBaselines = some 2 ∧
    calculatePerformance 10000 (some 5000) = some (2, .aboveStrong) := by
  refine ⟨fun views => rfl, fun views => by simp [calculatePerformance],
    fun views b hb => by simp [calculatePerformance, hb], ?_, ?_, ?_, ?_, ?_⟩
  · intro v B hsnap
    simp [getVideoPerformanceRatio, hsnap]
  · intro v B s hsnap hfind
    simp [getVideoPerformanceRatio, hsnap, hfind]
  · intro v B s b hsnap hfind
    constructor
    · rintro (hmv | hmv) <;> simp [getVideoPerformanceRatio, hsnap, hfind, hmv]
    · intro m hmv hm
      simp [getVideoPerformanceRatio, hsnap, hfind, hmv, hm]
  · simp [getVideoPerformanceRatio, exVideo, exBaselines, getSnapshotByWindow,
      baselineMatches24h]
    norm_num
  · simp [calculatePerformance, perfLabel]
    norm_num

/-- Witness for C1: the positive branch applied at views 10,000 and
baseline 5,000 yields exactly ratio 2. -/
theorem performance_ratio_null_or_quotient_witness :
    calculatePerformance 10000 (some 5000) =
      some ((10000 : ℚ) / 5000, perfLabel ((10000 : ℚ) / 5000)) :=
  performance_ratio_null_or_quotient.2.2.1 10000 5000 (by norm_num)

/-- Channel info returned by resolveChannel in dashboard/src/lib/actions.ts. -/
structure ChannelInfo where
  channel_id : String
  channel_name : String
  subscriber_count : ℤ
  total_videos : ℤ
deriving DecidableEq, Repr

/-- Row of the channels table (dashboard/src/types/database.ts). -/
structure ChannelRow where
  channel_id : String
  channel_name : String
  subscriber_count : ℤ
  total_videos : ℤ
  is_active : Bool
deriving DecidableEq, Repr

/-- AddChannelResult from dashboard/src/lib/actions.ts. -/
structure AddChannelResult where
  success : Bool
  error : Option String
  channel : Option ChannelInfo
deriving DecidableEq, Repr

/-- The slice of the supabase store that addChannel reads and writes:
channels, channel_baselines and bucket_channels. -/
structure ActionsDB where
  channels : List ChannelRow
  channel_baselines : List ChannelBaselineRow
  bucket_channels : List (String × String)
deriving DecidableEq, Repr

/-- JS Math.round as used on the non-negative vph inputs of
vphToWindowViews: round half towards positive infinity. -/
def jsRound (x : ℚ) : ℤ := ⌊x + 1/2⌋

/-- vphToWindowViews from dashboard/src/lib/actions.ts: the four seeded
windows with Math.round(vph * hours). -/
def vphToWindowViews (vph : ℚ) : List (String × ℤ) :=
  [("1h", jsRound (vph * 1)), ("6h", jsRound (vph * 6)),
   ("24h", jsRound (vph * 24)), ("48h", jsRound (vph * 48))]

/-- The seed baseline row addChannel upserts for one window. -/
def seedRow (cid : String) (w : String) (views : ℤ) : ChannelBaselineRow :=
  { channel_id := cid, is_short := false, window_type := w,
    median_views := some (views : ℚ), median_likes := none,
    median_comments := none, sample_size := some 10,
    source := some "manual" }

/-- Key equality of the channel_baselines primary key
(channel_id, is_short, window_type). -/
def sameBaselineKey (a b : ChannelBaselineRow) : Bool :=
  a.channel_id == b.channel_id && a.is_short == b.is_short &&
    a.window_type == b.window_type

/-- The supabase upsert on channel_baselines: replace the row with the
same primary key if present, append otherwise. -/
def upsertBaseline (rows : List ChannelBaselineRow) (r : ChannelBaselineRow) :
    List ChannelBaselineRow :=
  if rows.any (fun b => sameBaselineKey b r) then
    rows.map (fun b => if sameBaselineKey b r then r else b)
  else rows ++ [r]

/-- addChannel from dashboard/src/lib/actions.ts. The network resolution
(resolveChannel) is an external call and is passed in as its result; the
store is threaded explicitly. On a duplicate channel_id it returns the
failure before any write. -/
def addChannel (resolved : Option ChannelInfo) (vph : ℚ)
    (bucketId : Option String) (db : ActionsDB) :
    AddChannelResult × ActionsDB :=
  match resolved with
  | none =>
    ({ success := false,
       error := some "Could not find channel. Check the URL or handle.",
       channel := none }, db)
  | some info =>
    if db.channels.any (fun c => c.channel_id == info.channel_id) then
      ({ success := false, error := some "Channel already exists.",
         channel := none }, db)
    else
      let db1 : ActionsDB :=
        { db with channels := db.channels ++
            [{ channel_id := info.channel_id,
               channel_name := info.channel_name,
               subscriber_count := info.subscriber_count,
               total_videos := info.total_videos, is_active := true }] }
      let seeded : List ChannelBaselineRow :=
        (vphToWindowViews vph).foldl
          (fun rows wv => upsertBaseline rows (seedRow info.channel_id wv.1 wv.2))
          db1.channel_baselines
      let db2 : ActionsDB := { db1 with channel_baselines := seeded }
      let db3 : ActionsDB :=
        match bucketId with
        | some bid =>
          { db2 with bucket_channels := db2.bucket_channels ++ [(bid, info.channel_id)] }
        | none => db2
      ({ success := true, error := none, channel := some info }, db3)

/-- C9: when the channel URL resolves to a channel_id already present in
the store, addChannel returns success=false with an error message and the
store is unchanged: no channel row, no seed baselines, no bucket
membership. -/
theorem addChannel_duplicate_noop (info : ChannelInfo) (vph : ℚ)
    (bucketId : Option String) (db : ActionsDB)
    (hdup : db.channels.any (fun c => c.channel_id == info.channel_id) = true) :
    addChannel (some info) vph bucketId db =
      ({ success := false, error := some "Channel already exists.",
         channel := none }, db) := by
  simp [addChannel, hdup]

/-- Example store already containing channel c1, for the C9 witness. -/
def exDupDB : ActionsDB :=
  { channels := [{ channel_id := "c1", channel_name := "Chan",
                   subscriber_count := 1000, total_videos := 50,
                   is_active := true }],
    channel_baselines := [], bucket_channels := [] }

/-- Witness for C9: adding channel c1 to a store already holding c1 fails
and leaves the store unchanged. -/
theorem addChannel_duplicate_noop_witness :
    addChannel (some ⟨"c1", "Chan", 1000, 50⟩) 50 none exDupDB =
      ({ success := false, error := some "Channel already exists.",
         channel := none }, exDupDB) :=
  addChannel_duplicate_noop ⟨"c1", "Chan", 1000, 50⟩ 50 none exDupDB (by decide)

/-- C10: a successful addChannel seeds manual baselines for exactly the
four windows 1h, 6h, 24h, 48h, each with is_short=false,
median_views = round(vph * hours), null likes/comments, sample_size 10
and source "manual". -/
theorem addChannel_seeds_four_manual_baselines (info : ChannelInfo) (vph : ℚ)
    (bucketId : Option String) (db : ActionsDB)
    (hdup : db.channels.any (fun c => c.channel_id == info.channel_id) = false)
    (hnb : ∀ b ∈ db.channel_baselines, b.channel_id ≠ info.channel_id) :
    (addChannel (some info) vph bucketId db).1.success = true ∧
    (addChannel (some info) vph bucketId db).2.channel_baselines =
      db.channel_baselines ++
        [seedRow info.channel_id "1h" (jsRound (vph * 1)),
         seedRow info.channel_id "6h" (jsRound (vph * 6)),
         seedRow info.channel_id "24h" (jsRound (vph * 24)),
         seedRow info.channel_id "48h" (jsRound (vph * 48))] := by
  have happend : ∀ (rows : List ChannelBaselineRow) (r : ChannelBaselineRow),
      rows.any (fun b => sameBaselineKey b r) = false →
      upsertBaseline rows r = rows ++ [r] := by
    intro rows r h
    simp [upsertBaseline, h]
  have hany : ∀ (w : String) (v : ℤ),
      (db.channel_baselines.any
        fun b => sameBaselineKey b (seedRow info.channel_id w v)) = false := by
    intro w v
    simp only [List.any_eq_false]
    intro b hb
    have hne : b.channel_id ≠ info.channel_id := hnb b hb
    simp [sameBaselineKey, seedRow]
    intro h
    exact absurd h hne
  have hk : ∀ (w w' : String) (v v' : ℤ), w ≠ w' →
      sameBaselineKey (seedRow info.channel_id w v)
        (seedRow info.channel_id w' v') = false := by
    intro w w' v v' hww
    simp only [sameBaselineKey, seedRow, beq_self_eq_true, Bool.true_and,
      Bool.and_eq_false_iff]
    exact beq_eq_false_iff_ne.mpr hww
  have afold : (vphToWindowViews vph).foldl
      (fun rows wv => upsertBaseline rows (seedRow info.channel_id wv.1 wv.2))
      db.channel_baselines =
      db.channel_baselines ++
        [seedRow info.channel_id "1h" (jsRound (vph * 1)),
         seedRow info.channel_id "6h" (jsRound (vph * 6)),
         seedRow info.channel_id "24h" (jsRound (vph * 24)),
         seedRow info.channel_id "48h" (jsRound (vph * 48))] := by
    have a2 : ((db.channel_baselines ++
        [seedRow info.channel_id "1h" (jsRound (vph * 1))]).any
        fun b => sameBaselineKey b (seedRow info.channel_id "6h" (jsRound (vph * 6)))) = false := by
      simp only [List.any_append, List.any_cons, List.any_nil, Bool.or_false]
      rw [hany "6h" (jsRound (vph * 6)),
        hk "1h" "6h" (jsRound (vph * 1)) (jsRound (vph * 6)) (by decide)]
      rfl
    have a3 : (((db.channel_baselines ++
        [seedRow info.channel_id "1h" (jsRound (vph * 1))]) ++
        [seedRow info.channel_id "6h" (jsRound (vph * 6))]).any
        fun b => sameBaselineKey b (seedRow info.channel_id "24h" (jsRound (vph * 24)))) = false := by
      simp only [List.any_append, List.any_cons, List.any_nil, Bool.or_false]
      rw [hany "24h" (jsRound (vph * 24)),
        hk "1h" "24h" (jsRound (vph * 1)) (jsRound (vph * 24)) (by decide),
        hk "6h" "24h" (jsRound (vph * 6)) (jsRound (vph * 24)) (by decide)]
      rfl
    have a4 : ((((db.channel_baselines ++
        [seedRow info.channel_id "1h" (jsRound (vph * 1))]) ++
        [seedRow info.channel_id "6h" (jsRound (vph * 6))]) ++
        [seedRow info.channel_id "24h" (jsRound (vph * 24))]).any
        fun b => sameBaselineKey b (seedRow info.channel_id "48h" (jsRound (vph * 48)))) = false := by
      simp only [List.any_append, List.any_cons, List.any_nil, Bool.or_false]
      rw [hany "48h" (jsRound (vph * 48)),
        hk "1h" "48h" (jsRound (vph * 1)) (jsRound (vph * 48)) (by decide),
        hk "6h" "48h" (jsRound (vph * 6)) (jsRound (vph * 48)) (by decide),
        hk "24h" "48h" (jsRound (vph * 24)) (jsRound (vph * 48)) (by decide)]
      rfl
    simp only [vphToWindowViews, List.foldl_cons, List.foldl_nil]
    rw [happend _ _ (hany "1h" (jsRound (vph * 1))), happend _ _ a2,
      happend _ _ a3, happend _ _ a4]
    simp [List.append_assoc]
  constructor
  · simp [addChannel, hdup]
  · cases bucketId <;> simp only [addChannel, hdup, Bool.false_eq_true,
      if_false] <;> exact afold

/-- Empty store for the C10 witness. -/
def exEmptyDB : ActionsDB :=
  { channels := [], channel_baselines := [], bucket_channels := [] }

/-- Witness for C10: adding a fresh channel with vph 50 to the empty store
succeeds and seeds exactly the four manual rows. -/
theorem addChannel_seeds_four_manual_baselines_witness :
    (addChannel (some ⟨"c9", "New", 1000, 50⟩) 50 none exEmptyDB).1.success = true ∧
    (addChannel (some ⟨"c9", "New", 1000, 50⟩) 50 none exEmptyDB).2.channel_baselines =
      [seedRow "c9" "1h" (jsRound (50 * 1)),
       seedRow "c9" "6h" (jsRound (50 * 6)),
       seedRow "c9" "24h" (jsRound (50 * 24)),
       seedRow "c9" "48h" (jsRound (50 * 48))] :=
  addChannel_seeds_four_manual_baselines ⟨"c9", "New", 1000, 50⟩ 50 none
    exEmptyDB (by decide) (by intro b hb; simp [exEmptyDB] at hb)

/-- Row of the trending_topics table (dashboard/src/types/database.ts). -/
structure TrendRow where
  id : ℤ
  cluster_id : String
  channel_count : ℤ
  video_count : ℤ
  video_ids : List String
  detected_at : ℤ
  status : String
deriving DecidableEq, Repr

/-- The supabase ordering order(detected_at, ascending false). -/
def byDetectedDesc (a b : TrendRow) : Prop := b.detected_at ≤ a.detected_at

instance : DecidableRel byDetectedDesc :=
  fun a b => inferInstanceAs (Decidable (b.detected_at ≤ a.detected_at))

instance : IsTotal TrendRow byDetectedDesc :=
  ⟨fun a b => le_total b.detected_at a.detected_at⟩

instance : IsTrans TrendRow byDetectedDesc :=
  ⟨fun _ _ _ h1 h2 => le_trans h2 h1⟩

/-- The supabase ordering order(channel_count, ascending false). -/
def byChannelCountDesc (a b : TrendRow) : Prop :=
  b.channel_count ≤ a.channel_count

instance : DecidableRel byChannelCountDesc :=
  fun a b => inferInstanceAs (Decidable (b.channel_count ≤ a.channel_count))

instance : IsTotal TrendRow byChannelCountDesc :=
  ⟨fun a b => le_total b.channel_count a.channel_count⟩

instance : IsTrans TrendRow byChannelCountDesc :=
  ⟨fun _ _ _ h1 h2 => le_trans h2 h1⟩

namespace LibDataA

/-- getLatestTrendingTopics from the earlier checked-in revision of
dashboard/src/lib/data.ts: read the single most recent detected_at
(order desc, limit 1) and, if none, return []; otherwise select the rows
with exactly that stamp, ordered by channel_count descending. -/
def getLatestTrendingTopics (rows : List TrendRow) : List TrendRow :=
  match (rows.insertionSort byDetectedDesc).head? with
  | none => []
  | some latestRun =>
    (rows.filter (fun r => r.detected_at == latestRun.detected_at)).insertionSort
      byChannelCountDesc

end LibDataA

namespace LibDataB

/-- getLatestTrendingTopics from the later checked-in revision of
dashboard/src/lib/data.ts: select the rows with status "active",
ordered by channel_count descending; detected_at is not consulted. -/
def getLatestTrendingTopics (rows : List TrendRow) : List TrendRow :=
  (rows.filter (fun r => r.status == "active")).insertionSort byChannelCountDesc

end LibDataB

/-- Trend row from an older run that is still marked active. -/
def exTrendA : TrendRow :=
  { id := 1, cluster_id := "cl1", channel_count := 3, video_count := 4,
    video_ids := [], detected_at := 1, status := "active" }

/-- Trend row from the most recent run, marked inactive. -/
def exTrendB : TrendRow :=
  { id := 2, cluster_id := "cl2", channel_count := 2, video_count := 3,
    video_ids := [], detected_at := 2, status := "inactive" }

/-- Example trending_topics store for the C8 counterexample. -/
def exTrendStore : List TrendRow := [exTrendA, exTrendB]

/-- Counterexample to C8 as stated: in the later revision of lib/data.ts
the latest-trending-topics query does not select the rows whose
detected_at equals the maximum in the store.  Here exTrendB carries the
maximum detected_at yet is not returned, while exTrendA is returned with
a strictly older detected_at. -/
theorem latestTrendingTopics_maxStamp_cex :
    exTrendB ∈ exTrendStore ∧
    (∀ r ∈ exTrendStore, r.detected_at ≤ exTrendB.detected_at) ∧
    LibDataB.getLatestTrendingTopics exTrendStore = [exTrendA] ∧
    exTrendA.detected_at ≠ exTrendB.detected_at := by
  refine ⟨by decide, by decide, ?_, by decide⟩
  decide

/-- C8 amended: the earlier revision of getLatestTrendingTopics selects
exactly the rows whose detected_at equals the maximum detected_at in the
store (and returns [] when no rows exist); the later revision instead
selects exactly the rows with status "active" regardless of detected_at
(and likewise returns [] when no rows exist). -/
theorem latestTrendingTopics_selection :
    LibDataA.getLatestTrendingTopics [] = [] ∧
    (∀ (rows : List TrendRow) (r : TrendRow),
      r ∈ LibDataA.getLatestTrendingTopics rows ↔
        r ∈ rows ∧ ∀ r' ∈ rows, r'.detected_at ≤ r.detected_at) ∧
    LibDataB.getLatestTrendingTopics [] = [] ∧
    (∀ (rows : List TrendRow) (r : TrendRow),
      r ∈ LibDataB.getLatestTrendingTopics rows ↔
        r ∈ rows ∧ r.status = "active") := by
  have hhead : ∀ (rows : List TrendRow) (latest : TrendRow),
      (rows.insertionSort byDetectedDesc).head? = some latest →
      latest ∈ rows ∧ ∀ r ∈ rows, r.detected_at ≤ latest.detected_at := by
    intro rows latest hl
    cases hs : rows.insertionSort byDetectedDesc with
    | nil => rw [hs] at hl; exact absurd hl (by simp)
    | cons a t =>
      rw [hs] at hl
      have ha : a = latest := by simpa using hl
      subst ha
      have hsorted : (a :: t).Sorted byDetectedDesc := by
        rw [← hs]; exact List.sorted_insertionSort byDetectedDesc rows
      have hmem : ∀ x, x ∈ rows ↔ x ∈ a :: t := by
        intro x
        rw [← hs]
        exact (List.mem_insertionSort byDetectedDesc).symm
      constructor
      · exact (hmem a).mpr (List.mem_cons_self _ _)
      · intro r hr
        rcases List.mem_cons.mp ((hmem r).mp hr) with h | h
        · subst h; exact le_refl _
        · exact (List.sorted_cons.mp hsorted).1 r h
  refine ⟨rfl, ?_, rfl, ?_⟩
  · intro rows r
    unfold LibDataA.getLatestTrendingTopics
    cases hl : (rows.insertionSort byDetectedDesc).head? with
    | none =>
      have hnil : rows.insertionSort byDetectedDesc = [] := by
        simpa using hl
      have hrows : rows = [] := by
        have hp := List.perm_insertionSort byDetectedDesc rows
        rw [hnil] at hp
        exact (hp.symm.eq_nil)
      subst hrows
      simp
    | some latest =>
      obtain ⟨hlm, hlmax⟩ := hhead rows latest hl
      simp only [List.mem_insertionSort, List.mem_filter, beq_iff_eq]
      constructor
      · rintro ⟨hr, heq⟩
        refine ⟨hr, fun r' hr' => ?_⟩
        rw [heq]
        exact hlmax r' hr'
      · rintro ⟨hr, hmax⟩
        exact ⟨hr, le_antisymm (hlmax r hr) (hmax latest hlm)⟩
  · intro rows r
    simp [LibDataB.getLatestTrendingTopics, List.mem_filter]

/-- Modelled from the spec: the median of the Baseline Calculator (the
backend module database/baselines.py is not among the checked-in
sources): sort ascending and take the middle element, or the average of
the two middle elements for even counts; none on an empty sample. -/
def median (xs : List ℚ) : Option ℚ :=
  match xs with
  | [] => none
  | _ :: _ =>
    let s := xs.insertionSort (· ≤ ·)
    let n := s.length
    if n % 2 = 1 then some (s.getD (n / 2) 0)
    else some ((s.getD (n / 2 - 1) 0 + s.getD (n / 2) 0) / 2)

/-- C2: on every non-empty sample the baseline computation returns the
median obtained by sorting ascending and taking the middle element (or
the average of the two middle elements for even counts): for any sorted
permutation s of the sample, the result reads off the middle of s; and
on the sample [8000, 9000, 7500, 12000, 8500] it returns 8500. -/
theorem baseline_median_sorted_middle (xs s : List ℚ) (hne : xs ≠ [])
    (hperm : s.Perm xs) (hs : s.Sorted (· ≤ ·)) :
    median xs = some (if s.length % 2 = 1 then s.getD (s.length / 2) 0
      else (s.getD (s.length / 2 - 1) 0 + s.getD (s.length / 2) 0) / 2) ∧
    median [8000, 9000, 7500, 12000, 8500] = some 8500 := by
  have hsort : xs.insertionSort (· ≤ ·) = s :=
    List.eq_of_perm_of_sorted ((List.perm_insertionSort _ xs).trans hperm.symm)
      (List.sorted_insertionSort _ xs) hs
  constructor
  · cases xs with
    | nil => exact absurd rfl hne
    | cons a l =>
      simp only [median, hsort]
      by_cases h : s.length % 2 = 1 <;> simp [h]
  · have h5 : ([8000, 9000, 7500, 12000, 8500] : List ℚ).insertionSort (· ≤ ·) =
        [7500, 8000, 8500, 9000, 12000] := by
      norm_num [List.insertionSort, List.orderedInsert]
    simp only [median, h5]
    norm_num

/-- Witness for C2: the theorem applied at the spec's sample with its
sorted permutation, yielding the middle element 8500. -/
theorem baseline_median_sorted_middle_witness :
    median [8000, 9000, 7500, 12000, 8500] =
      some (if ([7500, 8000, 8500, 9000, 12000] : List ℚ).length % 2 = 1 then
        ([7500, 8000, 8500, 9000, 12000] : List ℚ).getD
          (([7500, 8000, 8500, 9000, 12000] : List ℚ).length / 2) 0
      else (([7500, 8000, 8500, 9000, 12000] : List ℚ).getD
          (([7500, 8000, 8500, 9000, 12000] : List ℚ).length / 2 - 1) 0 +
        ([7500, 8000, 8500, 9000, 12000] : List ℚ).getD
          (([7500, 8000, 8500, 9000, 12000] : List ℚ).length / 2) 0) / 2) := by
  have hsorteq : ([8000, 9000, 7500, 12000, 8500] : List ℚ).insertionSort (· ≤ ·) =
      [7500, 8000, 8500, 9000, 12000] := by
    norm_num [List.insertionSort, List.orderedInsert]
  have hperm : ([7500, 8000, 8500, 9000, 12000] : List ℚ).Perm
      [8000, 9000, 7500, 12000, 8500] :=
    hsorteq ▸ List.perm_insertionSort (· ≤ ·) [8000, 9000, 7500, 12000, 8500]
  have hs : ([7500, 8000, 8500, 9000, 12000] : List ℚ).Sorted (· ≤ ·) :=
    hsorteq ▸ List.sorted_insertionSort (· ≤ ·) [8000, 9000, 7500, 12000, 8500]
  exact (baseline_median_sorted_middle [8000, 9000, 7500, 12000, 8500]
    [7500, 8000, 8500, 9000, 12000] (by simp) hperm hs).1

/-- Key of the channel_baselines table: (channel, content-category,
window offset). -/
structure BKey where
  channel_id : String
  is_short : Bool
  window_type : String
deriving DecidableEq, Repr

/-- A tracked video with its snapshots, as read by the backend Baseline
Calculator. -/
structure VideoData where
  video_id : String
  channel_id : String
  published_at : ℤ
  is_short : Bool
  snapshots : List Snapshot
deriving DecidableEq, Repr

/-- Ordering by published_at descending (most recent first). -/
def byPublishedDesc (a b : VideoData) : Prop := b.published_at ≤ a.published_at

instance : DecidableRel byPublishedDesc :=
  fun a b => inferInstanceAs (Decidable (b.published_at ≤ a.published_at))

instance : IsTotal VideoData byPublishedDesc :=
  ⟨fun a b => le_total b.published_at a.published_at⟩

instance : IsTrans VideoData byPublishedDesc :=
  ⟨fun _ _ _ h1 h2 => le_trans h2 h1⟩

/-- Maximum and minimum sample sizes of the Baseline Calculator. -/
def BASELINE_SAMPLE_SIZE : ℕ := 30

/-- The minimum sample required before a baseline is written. -/
def BASELINE_MIN_SAMPLE : ℕ := 5

/-- Modelled from the spec: the sample selection of the Baseline
Calculator (backend module database/baselines.py not among the
checked-in sources): the 30 most recent videos by published_at of the
key's channel and content-category having a snapshot at the key's
window, with the snapshot at that window extracted for each. -/
def baselineSample (vids : List VideoData) (k : BKey) : List Snapshot :=
  (((vids.filter (fun v => v.channel_id == k.channel_id &&
      v.is_short == k.is_short &&
      v.snapshots.any (fun s => s.window_type == k.window_type))).insertionSort
    byPublishedDesc).take BASELINE_SAMPLE_SIZE).filterMap
    (fun v => v.snapshots.find? (fun s => s.window_type == k.window_type))

/-- The value columns of a channel_baselines row as written by the
Baseline Calculator. -/
structure BaselineValue where
  median_views : Option ℚ
  median_likes : Option ℚ
  median_comments : Option ℚ
  sample_size : ℕ
  source : String
deriving DecidableEq, Repr

/-- Modelled from the spec: one run of the Baseline Calculator (backend
module database/baselines.py not among the checked-in sources): for each
key, if at least the minimum sample of qualifying snapshots exists,
upsert the calculated medians with the sample size and
source "calculated"; otherwise leave the existing table entry untouched. -/
def baselineRun (vids : List VideoData) (T : BKey → Option BaselineValue) :
    BKey → Option BaselineValue :=
  fun k =>
    let sample := baselineSample vids k
    if BASELINE_MIN_SAMPLE ≤ sample.length then
      some { median_views := median (sample.map (fun s => s.views)),
             median_likes := median (sample.map (fun s => s.likes)),
             median_comments := median (sample.map (fun s => s.comments)),
             sample_size := sample.length,
             source := "calculated" }
    else T k

/-- C6: running the Baseline Calculator twice in succession over the same
snapshot data produces identical ChannelBaseline rows: the same median
values and the same sample size at every key. -/
theorem baselineRun_idempotent (vids : List VideoData)
    (T : BKey → Option BaselineValue) :
    baselineRun vids (baselineRun vids T) = baselineRun vids T := by
  funext k
  by_cases h : BASELINE_MIN_SAMPLE ≤ (baselineSample vids k).length <;>
    simp [baselineRun, h]

/-- C7: a manual baseline at a key is replaced by a calculated row once at
least 5 qualifying snapshots exist for that key, and is left untouched
while fewer than 5 exist. -/
theorem manualBaseline_superseded (vids : List VideoData)
    (T : BKey → Option BaselineValue) (k : BKey) (row : BaselineValue)
    (hrow : T k = some row) (_hman : row.source = "manual") :
    (BASELINE_MIN_SAMPLE ≤ (baselineSample vids k).length →
      baselineRun vids T k =
        some { median_views := median ((baselineSample vids k).map (fun s => s.views)),
               median_likes := median ((baselineSample vids k).map (fun s => s.likes)),
               median_comments := median ((baselineSample vids k).map (fun s => s.comments)),
               sample_size := (baselineSample vids k).length,
               source := "calculated" }) ∧
    ((baselineSample vids k).length < BASELINE_MIN_SAMPLE →
      baselineRun vids T k = some row) := by
  constructor
  · intro h
    simp [baselineRun, h]
  · intro h
    simp [baselineRun, Nat.not_le.mpr h, hrow]

/-- A video of channel c1 with a completed 24h snapshot, for the C7
witness sample. -/
def exVid (i : ℕ) : VideoData :=
  { video_id := toString i, channel_id := "c1", published_at := (i : ℤ),
    is_short := false, snapshots := [⟨toString i, "24h", 1000, 10, 1⟩] }

/-- Five qualifying videos for the C7 witness. -/
def exVids : List VideoData := [exVid 1, exVid 2, exVid 3, exVid 4, exVid 5]

/-- The key of the C7 witness. -/
def exKey : BKey := ⟨"c1", false, "24h"⟩

/-- The operator-seeded manual row of the C7 witness. -/
def exManualRow : BaselineValue :=
  { median_views := some 1200, median_likes := none, median_comments := none,
    sample_size := 10, source := "manual" }

/-- The baseline table of the C7 witness: a manual seed at exKey. -/
def exTable : BKey → Option BaselineValue :=
  fun k => if k = exKey then some exManualRow else none

/-- Witness for C7: with five qualifying snapshots at exKey, the run
replaces the manual seed by the calculated row. -/
theorem manualBaseline_superseded_witness :
    baselineRun exVids exTable exKey =
      some { median_views := median ((baselineSample exVids exKey).map (fun s => s.views)),
             median_likes := median ((baselineSample exVids exKey).map (fun s => s.likes)),
             median_comments := median ((baselineSample exVids exKey).map (fun s => s.comments)),
             sample_size := (baselineSample exVids exKey).length,
             source := "calculated" } :=
  (manualBaseline_superseded exVids exTable exKey exManualRow (by simp [exTable])
    rfl).1 (by decide)

/-- A candidate item of the Trend Aggregator: identity, owning channel,
24h performance ratio and age in days at aggregation time. -/
structure CandidateVideo where
  video_id : String
  channel_id : String
  performance_ratio : ℚ
  days_since_published : ℕ
deriving DecidableEq, Repr

/-- Modelled from the spec: candidate selection of the Trend Aggregator
(backend module trends/detector.py not among the checked-in sources):
items published within the trailing window whose 24h performance ratio
is at least the configured threshold. -/
def trendCandidates (vids : List CandidateVideo) (windowDays : ℕ)
    (minRatio : ℚ) : List CandidateVideo :=
  vids.filter (fun v => decide (v.days_since_published ≤ windowDays) &&
    decide (minRatio ≤ v.performance_ratio))

/-- The number of distinct contributing channels among a cluster's member
items. -/
def distinctChannelCount (vids : List CandidateVideo) : ℕ :=
  ((vids.map (fun v => v.channel_id)).dedup).length

/-- Modelled from the spec: the effective minimum channel count of the
trend qualification rule (backend module trends/detector.py not among
the checked-in sources): max(2, min(configured_min_channels,
floor(bucket_size / 2))). -/
def effectiveMinChannels (configMinChannels bucketSize : ℕ) : ℕ :=
  max 2 (min configMinChannels (bucketSize / 2))

/-- Modelled from the spec: cluster qualification of the Trend Aggregator
(backend module trends/detector.py not among the checked-in sources):
the cluster is a trend iff its distinct contributing-channel count
reaches the effective minimum. -/
def clusterQualifies (members : List CandidateVideo)
    (configMinChannels bucketSize : ℕ) : Bool :=
  decide (effectiveMinChannels configMinChannels bucketSize ≤
    distinctChannelCount members)

/-- Cluster members of the C3 example: two candidates from two distinct
channels, both at or above 1.5x baseline, both within 14 days. -/
def exClusterVideos : List CandidateVideo :=
  [{ video_id := "v1", channel_id := "c1", performance_ratio := 2,
     days_since_published := 3 },
   { video_id := "v2", channel_id := "c2", performance_ratio := 8/5,
     days_since_published := 10 }]

/-- C3: a cluster qualifies as a trend iff its distinct
contributing-channel count is at least max(2, min(configured_min_channels,
floor(bucket_size / 2))); with min_channels 3 and a bucket of 4 channels
the effective requirement is 2, and a cluster of exactly 2 distinct
channels whose videos are at or above 1.5x baseline within the trailing
14 days qualifies. -/
theorem trend_qualification_scaling :
    (∀ (members : List CandidateVideo) (configMinChannels bucketSize : ℕ),
      clusterQualifies members configMinChannels bucketSize = true ↔
        max 2 (min configMinChannels (bucketSize / 2)) ≤
          distinctChannelCount members) ∧
    effectiveMinChannels 3 4 = 2 ∧
    trendCandidates exClusterVideos 14 (3/2) = exClusterVideos ∧
    distinctChannelCount exClusterVideos = 2 ∧
    clusterQualifies exClusterVideos 3 4 = true := by
  refine ⟨?_, by decide, ?_, ?_, ?_⟩
  · intro members configMinChannels bucketSize
    simp [clusterQualifies, effectiveMinChannels]
  · simp only [trendCandidates, exClusterVideos, List.filter_cons,
      List.filter_nil]
    norm_num
  · decide
  · have h : distinctChannelCount exClusterVideos = 2 := by decide
    simp [clusterQualifies, effectiveMinChannels, h]

/-- Status of a scheduled_snapshots row. -/
inductive MStatus where
  | pending
  | completed
  | failed
  | skipped
deriving DecidableEq, Repr

/-- Tracking status of a videos row. -/
inductive TStatus where
  | active
  | completed
  | removed
deriving DecidableEq, Repr

/-- A scheduled_snapshots row: owning item, window, due timestamp,
status and attempt counter. -/
structure SchedMeas where
  video_id : String
  window_type : String
  scheduled_for : ℤ
  status : MStatus
  attempts : ℕ
deriving DecidableEq, Repr

/-- A videos row as seen by the scheduler. -/
structure TrackedItem where
  video_id : String
  channel_id : String
  published_at : ℤ
  tracking_status : TStatus
deriving DecidableEq, Repr

/-- A snapshots row written on a successful measurement. -/
structure SnapRecord where
  video_id : String
  window_type : String
  views : ℚ
deriving DecidableEq, Repr

/-- The durable store coordinating the lifecycle manager and the
snapshot worker. -/
structure TrackerState where
  items : List TrackedItem
  meas : List SchedMeas
  snaps : List SnapRecord
deriving DecidableEq, Repr

/-- The eight fixed windows with their offsets in hours. -/
def windowOffsets : List (String × ℤ) :=
  [("0h", 0), ("1h", 1), ("6h", 6), ("12h", 12), ("24h", 24), ("48h", 48),
   ("7d", 168), ("14d", 336)]

/-- The eight fixed window labels in order. -/
def windowLabels : List String := windowOffsets.map Prod.fst

/-- The retry bound of the snapshot worker. -/
def maxAttempts : ℕ := 5

/-- Modelled from the spec: the 8 ScheduledMeasurement rows created
atomically with a TrackedItem at discovery (backend modules
database/videos.py and scheduler/snapshot_worker.py not among the
checked-in sources), due at published_at + offset, pending, 0 attempts. -/
def createMeasurements (it : TrackedItem) : List SchedMeas :=
  windowOffsets.map (fun wo =>
    { video_id := it.video_id, window_type := wo.1,
      scheduled_for := it.published_at + wo.2, status := .pending,
      attempts := 0 })

/-- Modelled from the spec: one atomic action of the Item Lifecycle
Manager or the Snapshot Scheduler/Worker (backend modules
discovery/, scheduler/snapshot_worker.py not among the checked-in
sources): discovery of a new item creates it with its 8 measurements;
a due pending measurement is completed (writing a snapshot), retried on
transient failure with the bounded attempt counter, or skipped on
permanent failure; an item whose final measurement is terminal is
completed; a vanished item is marked removed.  No action adds or removes
measurements of an existing item or touches a non-pending measurement. -/
inductive Step : TrackerState → TrackerState → Prop where
  | discover (s : TrackerState) (it : TrackedItem)
      (hnew : it.video_id ∉ s.items.map (fun i => i.video_id))
      (hact : it.tracking_status = .active) :
      Step s ⟨s.items ++ [it], s.meas ++ createMeasurements it, s.snaps⟩
  | fetchSuccess (s : TrackerState) (pre post : List SchedMeas)
      (m : SchedMeas) (views : ℚ)
      (hm : s.meas = pre ++ m :: post) (hp : m.status = .pending) :
      Step s ⟨s.items, pre ++ { m with status := .completed } :: post,
        s.snaps ++ [⟨m.video_id, m.window_type, views⟩]⟩
  | fetchTransient (s : TrackerState) (pre post : List SchedMeas)
      (m : SchedMeas)
      (hm : s.meas = pre ++ m :: post) (hp : m.status = .pending) :
      Step s ⟨s.items, pre ++ { m with
        status := if m.attempts + 1 < maxAttempts then .pending else .failed,
        attempts := m.attempts + 1 } :: post, s.snaps⟩
  | fetchPermanent (s : TrackerState) (pre post : List SchedMeas)
      (m : SchedMeas)
      (hm : s.meas = pre ++ m :: post) (hp : m.status = .pending) :
      Step s ⟨s.items, pre ++ { m with status := .skipped } :: post, s.snaps⟩
  | completeItem (s : TrackerState) (pre post : List TrackedItem)
      (it : TrackedItem)
      (hit : s.items = pre ++ it :: post)
      (hterm : ∀ m ∈ s.meas, m.video_id = it.video_id →
        m.window_type = "14d" → m.status ≠ .pending) :
      Step s ⟨pre ++ { it with tracking_status := .completed } :: post,
        s.meas, s.snaps⟩
  | removeItem (s : TrackerState) (pre post : List TrackedItem)
      (it : TrackedItem)
      (hit : s.items = pre ++ it :: post) :
      Step s ⟨pre ++ { it with tracking_status := .removed } :: post,
        s.meas, s.snaps⟩

/-- The empty initial store. -/
def initState : TrackerState := ⟨[], [], []⟩

/-- States reachable from the empty store by scheduler actions. -/
def Reachable (s : TrackerState) : Prop :=
  Relation.ReflTransGen Step initState s

/-- The measurement-set invariant: every measurement belongs to a tracked
item, and each tracked item's measurements are exactly one per fixed
window, in order. -/
def MeasInv (s : TrackerState) : Prop :=
  (∀ m ∈ s.meas, m.video_id ∈ s.items.map (fun i => i.video_id)) ∧
  (∀ it ∈ s.items,
    ((s.meas.filter (fun m => m.video_id == it.video_id)).map
      (fun m => m.window_type)) = windowLabels)

/-- Replacing one measurement by one with the same item and window leaves
each item's filtered window list unchanged. -/
theorem filter_map_wt_replace (pre post : List SchedMeas) (m m' : SchedMeas)
    (hid : m'.video_id = m.video_id) (hwt : m'.window_type = m.window_type)
    (vid : String) :
    ((pre ++ m' :: post).filter (fun x => x.video_id == vid)).map
      (fun x => x.window_type) =
    ((pre ++ m :: post).filter (fun x => x.video_id == vid)).map
      (fun x => x.window_type) := by
  by_cases h : (m.video_id == vid) = true <;>
    simp [List.filter_append, List.filter_cons, hid, hwt, h]

/-- MeasInv is preserved when one measurement is replaced by one with the
same item and window (the worker's status/attempt updates). -/
theorem measInv_replace {s : TrackerState} (pre post : List SchedMeas)
    (m m' : SchedMeas) (hm : s.meas = pre ++ m :: post)
    (hid : m'.video_id = m.video_id) (hwt : m'.window_type = m.window_type)
    (hinv : MeasInv s) (snaps' : List SnapRecord) :
    MeasInv ⟨s.items, pre ++ m' :: post, snaps'⟩ := by
  obtain ⟨h1, h2⟩ := hinv
  constructor
  · intro x hx
    simp only [List.mem_append, List.mem_cons] at hx
    rcases hx with hx | hx | hx
    · exact h1 x (by rw [hm]; simp [hx])
    · subst hx
      rw [hid]
      exact h1 m (by rw [hm]; simp)
    · exact h1 x (by rw [hm]; simp [hx])
  · intro it hit
    have hold := h2 it hit
    rw [hm] at hold
    rw [show (⟨s.items, pre ++ m' :: post, snaps'⟩ : TrackerState).meas =
      pre ++ m' :: post from rfl]
    rw [filter_map_wt_replace pre post m m' hid hwt it.video_id]
    exact hold

/-- MeasInv is preserved when one item's tracking status changes. -/
theorem measInv_item_update {s : TrackerState} (pre post : List TrackedItem)
    (it it' : TrackedItem) (hit : s.items = pre ++ it :: post)
    (hid : it'.video_id = it.video_id) (hinv : MeasInv s) :
    MeasInv ⟨pre ++ it' :: post, s.meas, s.snaps⟩ := by
  obtain ⟨h1, h2⟩ := hinv
  have hmap : (pre ++ it' :: post).map (fun i => i.video_id) =
      s.items.map (fun i => i.video_id) := by
    rw [hit]; simp [hid]
  constructor
  · intro x hx
    show x.video_id ∈ (pre ++ it' :: post).map (fun i => i.video_id)
    rw [hmap]
    exact h1 x hx
  · intro x hx
    simp only [List.mem_append, List.mem_cons] at hx
    rcases hx with hx | hx | hx
    · exact h2 x (by rw [hit]; simp [hx])
    · rw [hx]
      show ((s.meas.filter (fun m => m.video_id == it'.video_id)).map
        (fun m => m.window_type)) = windowLabels
      rw [hid]
      exact h2 it (by rw [hit]; simp)
    · exact h2 x (by rw [hit]; simp [hx])

/-- Every scheduler action preserves MeasInv. -/
theorem measInv_step {s s' : TrackerState} (h : Step s s')
    (hinv : MeasInv s) : MeasInv s' := by
  cases h with
  | discover it hnew hact =>
    obtain ⟨h1, h2⟩ := hinv
    constructor
    · intro m hm
      simp only [List.mem_append] at hm
      simp only [List.map_append, List.mem_append]
      rcases hm with hm | hm
      · exact Or.inl (h1 m hm)
      · right
        have hmid : m.video_id = it.video_id := by
          simp only [createMeasurements, List.mem_map] at hm
          obtain ⟨wo, _, rfl⟩ := hm
          rfl
        simp [hmid]
    · intro it' hit'
      simp only [List.mem_append, List.mem_singleton] at hit'
      rcases hit' with hit' | rfl
      · have hne : it.video_id ≠ it'.video_id := by
          intro he
          exact hnew (he ▸ List.mem_map_of_mem _ hit')
        have hcreate : (createMeasurements it).filter
            (fun m => m.video_id == it'.video_id) = [] := by
          rw [List.filter_eq_nil_iff]
          intro m hm
          simp only [createMeasurements, List.mem_map] at hm
          obtain ⟨wo, _, rfl⟩ := hm
          simp [hne]
        rw [show (⟨s.items ++ [it], s.meas ++ createMeasurements it, s.snaps⟩ :
          TrackerState).meas = s.meas ++ createMeasurements it from rfl]
        rw [List.filter_append, hcreate, List.append_nil]
        exact h2 it' hit'
      · have hold : s.meas.filter (fun m => m.video_id == it'.video_id) = [] := by
          rw [List.filter_eq_nil_iff]
          intro m hm hbe
          have hin := h1 m hm
          rw [eq_of_beq hbe] at hin
          exact hnew hin
        rw [show (⟨s.items ++ [it'], s.meas ++ createMeasurements it', s.snaps⟩ :
          TrackerState).meas = s.meas ++ createMeasurements it' from rfl]
        rw [List.filter_append, hold, List.nil_append]
        simp [createMeasurements, windowOffsets, windowLabels, List.filter_cons]
  | fetchSuccess pre post m views hm hp =>
    exact measInv_replace pre post m { m with status := .completed } hm rfl rfl
      hinv _
  | fetchTransient pre post m hm hp =>
    exact measInv_replace pre post m { m with
      status := if m.attempts + 1 < maxAttempts then .pending else .failed,
      attempts := m.attempts + 1 } hm rfl rfl hinv _
  | fetchPermanent pre post m hm hp =>
    exact measInv_replace pre post m { m with status := .skipped } hm rfl rfl
      hinv _
  | completeItem pre post it hit hterm =>
    exact measInv_item_update pre post it
      { it with tracking_status := .completed } hit rfl hinv
  | removeItem pre post it hit =>
    exact measInv_item_update pre post it
      { it with tracking_status := .removed } hit rfl hinv

/-- MeasInv holds along any run of scheduler actions. -/
theorem measInv_steps {s s' : TrackerState}
    (h : Relation.ReflTransGen Step s s') (hinv : MeasInv s) : MeasInv s' := by
  induction h with
  | refl => exact hinv
  | tail _ hbc ih => exact measInv_step hbc ih

/-- MeasInv holds in every reachable state. -/
theorem measInv_reachable {s : TrackerState} (h : Reachable s) : MeasInv s :=
  measInv_steps h ⟨by simp [initState], by simp [initState]⟩

/-- C4: in every reachable state, every tracked item has exactly 8
scheduled measurements, one per fixed offset 0h, 1h, 6h, 12h, 24h, 48h,
7d, 14d, created with the item at discovery and never added to or
removed from afterward. -/
theorem trackedItem_eight_measurements (s : TrackerState) (hs : Reachable s)
    (it : TrackedItem) (hit : it ∈ s.items) :
    (s.meas.filter (fun m => m.video_id == it.video_id)).length = 8 ∧
    (s.meas.filter (fun m => m.video_id == it.video_id)).map
      (fun m => m.window_type) =
      ["0h", "1h", "6h", "12h", "24h", "48h", "7d", "14d"] := by
  have h := (measInv_reachable hs).2 it hit
  constructor
  · have hlen := congrArg List.length h
    simpa [windowLabels, windowOffsets] using hlen
  · rw [h]
    rfl

/-- The discovered item of the C4 and C5 witnesses. -/
def exItem : TrackedItem :=
  { video_id := "v1", channel_id := "c1", published_at := 1000,
    tracking_status := .active }

/-- The state after discovering exItem in the empty store. -/
def exState1 : TrackerState :=
  ⟨[exItem], createMeasurements exItem, []⟩

/-- exState1 is reachable: one discovery from the empty store. -/
theorem reach_exState1 : Reachable exState1 :=
  Relation.ReflTransGen.single
    (Step.discover initState exItem (by simp [initState]) rfl)

/-- Witness for C4: in the reachable state holding exItem, exItem has
exactly its 8 measurements, one per window. -/
theorem trackedItem_eight_measurements_witness :
    (exState1.meas.filter (fun m => m.video_id == exItem.video_id)).length = 8 ∧
    (exState1.meas.filter (fun m => m.video_id == exItem.video_id)).map
      (fun m => m.window_type) =
      ["0h", "1h", "6h", "12h", "24h", "48h", "7d", "14d"] :=
  trackedItem_eight_measurements exState1 reach_exState1 exItem (by decide)

/-- A measurement that has left the pending status survives every
scheduler action unchanged. -/
theorem nonpending_mem_step {t t' : TrackerState} (h : Step t t')
    (m : SchedMeas) (hmem : m ∈ t.meas) (hnp : m.status ≠ .pending) :
    m ∈ t'.meas := by
  cases h with
  | discover it hnew hact => exact List.mem_append_left _ hmem
  | fetchSuccess pre post m₀ views hm hp =>
    rw [hm] at hmem
    rcases List.mem_append.mp hmem with hx | hx
    · exact List.mem_append_left _ hx
    · rcases List.mem_cons.mp hx with hx | hx
      · rw [← hx] at hp
        exact absurd hp hnp
      · exact List.mem_append_right _ (List.mem_cons_of_mem _ hx)
  | fetchTransient pre post m₀ hm hp =>
    rw [hm] at hmem
    rcases List.mem_append.mp hmem with hx | hx
    · exact List.mem_append_left _ hx
    · rcases List.mem_cons.mp hx with hx | hx
      · rw [← hx] at hp
        exact absurd hp hnp
      · exact List.mem_append_right _ (List.mem_cons_of_mem _ hx)
  | fetchPermanent pre post m₀ hm hp =>
    rw [hm] at hmem
    rcases List.mem_append.mp hmem with hx | hx
    · exact List.mem_append_left _ hx
    · rcases List.mem_cons.mp hx with hx | hx
      · rw [← hx] at hp
        exact absurd hp hnp
      · exact List.mem_append_right _ (List.mem_cons_of_mem _ hx)
  | completeItem pre post it hit hterm => exact hmem
  | removeItem pre post it hit => exact hmem

/-- A non-pending measurement survives any run of scheduler actions. -/
theorem nonpending_mem_steps {s s' : TrackerState}
    (h : Relation.ReflTransGen Step s s') (m : SchedMeas)
    (hmem : m ∈ s.meas) (hnp : m.status ≠ .pending) : m ∈ s'.meas := by
  induction h with
  | refl => exact hmem
  | tail _ hbc ih => exact nonpending_mem_step hbc m ih hnp

/-- Filtering on the conjunction of the item and window tests equals
filtering on the window test after the item test. -/
theorem filter_key_split (l : List SchedMeas) (vid w : String) :
    l.filter (fun m => m.video_id == vid && m.window_type == w) =
    (l.filter (fun m => m.video_id == vid)).filter
      (fun m => m.window_type == w) := by
  induction l with
  | nil => rfl
  | cons a t ih =>
    by_cases h1 : (a.video_id == vid) = true <;>
      by_cases h2 : (a.window_type == w) = true <;>
        simp [List.filter_cons, h1, h2, ih]

/-- A list of measurements with pairwise-distinct windows has at most one
element at any given window. -/
theorem length_filter_wt_le_one (l : List SchedMeas) (w : String)
    (h : (l.map (fun m => m.window_type)).Nodup) :
    (l.filter (fun m => m.window_type == w)).length ≤ 1 := by
  induction l with
  | nil => simp
  | cons a t ih =>
    simp only [List.map_cons, List.nodup_cons] at h
    by_cases ha : (a.window_type == w) = true
    · have haw : a.window_type = w := by simpa using ha
      have ht : t.filter (fun m => m.window_type == w) = [] := by
        rw [List.filter_eq_nil_iff]
        intro b hb hbw
        apply h.1
        have hbww : b.window_type = w := by simpa using hbw
        rw [haw, ← hbww]
        exact List.mem_map_of_mem _ hb
      simp [List.filter_cons, ha, ht]
    · simp only [List.filter_cons, ha, Bool.false_eq_true, if_false]
      exact ih h.2

/-- Under MeasInv the store holds exactly one measurement at the key of
any measurement it contains. -/
theorem key_filter_unique {s : TrackerState} (hinv : MeasInv s)
    (m : SchedMeas) (hm : m ∈ s.meas) :
    s.meas.filter (fun x => x.video_id == m.video_id &&
      x.window_type == m.window_type) = [m] := by
  have hvid : m.video_id ∈ s.items.map (fun i => i.video_id) := hinv.1 m hm
  obtain ⟨it, hit, hid⟩ := List.mem_map.mp hvid
  have h2 := hinv.2 it hit
  have hnodup : ((s.meas.filter (fun x => x.video_id == it.video_id)).map
      (fun x => x.window_type)).Nodup := by
    rw [h2]; decide
  rw [← hid, filter_key_split]
  have hle := length_filter_wt_le_one _ m.window_type hnodup
  have hmem2 : m ∈ (s.meas.filter (fun x => x.video_id == it.video_id)).filter
      (fun x => x.window_type == m.window_type) :=
    List.mem_filter.mpr ⟨List.mem_filter.mpr ⟨hm, by simp [hid]⟩, by simp⟩
  cases hl : (s.meas.filter (fun x => x.video_id == it.video_id)).filter
      (fun x => x.window_type == m.window_type) with
  | nil =>
    rw [hl] at hmem2
    cases hmem2
  | cons a t =>
    rw [hl] at hmem2 hle
    cases t with
    | nil =>
      have : a = m := by
        rcases List.mem_cons.mp hmem2 with hx | hx
        · exact hx.symm
        · cases hx
      rw [this]
    | cons b u => simp at hle

/-- C5: a measurement whose 5th consecutive transient failure makes it
failed is never attempted again: a transient failure at maxAttempts - 1
prior attempts yields status failed, and in every state reachable from
one holding a failed measurement, the unique measurement at its (item,
window) key is that same row: same attempt counter, same due timestamp,
status still failed, never pending again. -/
theorem failedMeasurement_never_retried (s s' : TrackerState) (m : SchedMeas)
    (hs : Reachable s) (hss : Relation.ReflTransGen Step s s')
    (hm : m ∈ s.meas) (hfail : m.status = .failed) :
    m ∈ s'.meas ∧
    s'.meas.filter (fun x => x.video_id == m.video_id &&
      x.window_type == m.window_type) = [m] ∧
    (∀ (s₀ : TrackerState) (pre post : List SchedMeas) (m₀ : SchedMeas),
      s₀.meas = pre ++ m₀ :: post → m₀.status = .pending →
      m₀.attempts + 1 = maxAttempts →
      Step s₀
        ⟨s₀.items,
         pre ++ { m₀ with status := MStatus.failed, attempts := m₀.attempts + 1 } :: post,
         s₀.snaps⟩) := by
  have hnp : m.status ≠ .pending := by rw [hfail]; exact fun h => nomatch h
  have hmem' : m ∈ s'.meas := nonpending_mem_steps hss m hm hnp
  have hinv' : MeasInv s' := measInv_steps hss (measInv_reachable hs)
  refine ⟨hmem', key_filter_unique hinv' m hmem', ?_⟩
  intro s₀ pre post m₀ hmeas hp h5
  have hstep := Step.fetchTransient s₀ pre post m₀ hmeas hp
  rw [h5] at hstep
  rw [h5]
  simpa using hstep

/-- The pending "0h" measurement of exItem after i transient failures. -/
def exPend (i : ℕ) : SchedMeas :=
  { video_id := "v1", window_type := "0h", scheduled_for := 1000,
    status := .pending, attempts := i }

/-- The other seven measurements of exItem. -/
def exMeasTail : List SchedMeas := (createMeasurements exItem).drop 1

/-- The store after i transient failures of the "0h" measurement. -/
def exStateP (i : ℕ) : TrackerState := ⟨[exItem], exPend i :: exMeasTail, []⟩

/-- The "0h" measurement after its 5th transient failure. -/
def exFailedMeas : SchedMeas :=
  { video_id := "v1", window_type := "0h", scheduled_for := 1000,
    status := .failed, attempts := 5 }

/-- The store holding the failed "0h" measurement. -/
def exState2 : TrackerState := ⟨[exItem], exFailedMeas :: exMeasTail, []⟩

/-- exState2 is reachable: discovery then five transient failures. -/
theorem reach_exState2 : Reachable exState2 := by
  have h0 : Step initState exState1 :=
    Step.discover initState exItem (by simp [initState]) rfl
  have h1 : Step exState1 (exStateP 1) :=
    Step.fetchTransient exState1 [] exMeasTail (exPend 0) (by decide) rfl
  have h2 : Step (exStateP 1) (exStateP 2) :=
    Step.fetchTransient (exStateP 1) [] exMeasTail (exPend 1) rfl rfl
  have h3 : Step (exStateP 2) (exStateP 3) :=
    Step.fetchTransient (exStateP 2) [] exMeasTail (exPend 2) rfl rfl
  have h4 : Step (exStateP 3) (exStateP 4) :=
    Step.fetchTransient (exStateP 3) [] exMeasTail (exPend 3) rfl rfl
  have h5 : Step (exStateP 4) exState2 :=
    Step.fetchTransient (exStateP 4) [] exMeasTail (exPend 4) rfl rfl
  exact Relation.ReflTransGen.head h0 (Relation.ReflTransGen.head h1
    (Relation.ReflTransGen.head h2 (Relation.ReflTransGen.head h3
      (Relation.ReflTransGen.head h4 (Relation.ReflTransGen.single h5)))))

/-- Witness for C5: the failed "0h" measurement of exState2 stays the
unique row at its key (here with s' = s itself). -/
theorem failedMeasurement_never_retried_witness :
    exFailedMeas ∈ exState2.meas ∧
    exState2.meas.filter (fun x => x.video_id == exFailedMeas.video_id &&
      x.window_type == exFailedMeas.window_type) = [exFailedMeas] ∧
    (∀ (s₀ : TrackerState) (pre post : List SchedMeas) (m₀ : SchedMeas),
      s₀.meas = pre ++ m₀ :: post → m₀.status = .pending →
      m₀.attempts + 1 = maxAttempts →
      Step s₀
        ⟨s₀.items,
         pre ++ { m₀ with status := MStatus.failed, attempts := m₀.attempts + 1 } :: post,
         s₀.snaps⟩) :=
  failedMeasurement_never_retried exState2 exState2 exFailedMeas reach_exState2
    Relation.ReflTransGen.refl (by decide) rfl

end YTComp
